import Mathlib

/-!
# Verification of the CIS benchmark downloader (`cis_benchmarks.py`)

A shallow embedding of the discovery-then-download pipeline of
`cis_benchmarks.py`: Python dictionaries are insertion-ordered association
lists, the filesystem is an association list from paths to byte lists, and
HTTP traffic is an oracle from requests to responses.  Each function of the
source is translated to an executable Lean definition, and the claims of the
specification are settled as theorems about those definitions.
-/

namespace CISBench

/-! ## Python dictionaries

Insertion-ordered association lists.  `dictInsert` models `d[k] = v`:
an existing key keeps its position and gets the new value, a fresh key is
appended at the end.  `dictGet` models `d[k]` / `d.get(k)`. -/

def dictInsert {α : Type} (m : List (String × α)) (k : String) (v : α) :
    List (String × α) :=
  if m.any (fun p => p.1 == k) then
    m.map (fun p => if p.1 == k then (k, v) else p)
  else
    m ++ [(k, v)]

def dictGet {α : Type} (m : List (String × α)) (k : String) : Option α :=
  (m.find? (fun p => p.1 == k)).map (fun p => p.2)

/-! ## Python string and path primitives

`str.startswith` / `str.endswith` are prefix / suffix tests on the character
sequence; `os.path.join` (POSIX, two arguments) discards the left part when
the right part is absolute; `os.path.basename` keeps everything after the
last separator; `int(...)` accepts optional surrounding whitespace, an
optional sign, and digits with single interior underscores, and raises
`ValueError` otherwise (modelled as `none`). -/

def pyStartswith (s pre : String) : Bool :=
  pre.data.isPrefixOf s.data

def pyEndswith (s suf : String) : Bool :=
  suf.data.isSuffixOf s.data

def os_path_join (a b : String) : String :=
  if pyStartswith b "/" then b
  else if a == "" || pyEndswith a "/" then a ++ b
  else a ++ "/" ++ b

def os_path_basename (p : String) : String :=
  String.mk ((p.data.reverse.takeWhile (fun c => c != '/')).reverse)

/-- A path lies under a directory: it is the directory itself or has the
directory plus a separator as a prefix. -/
def rooted_under (p dir : String) : Bool :=
  p == dir || pyStartswith p (dir ++ "/")

def digitsTailOk : List Char → Bool
  | [] => true
  | '_' :: c :: r => c.isDigit && digitsTailOk r
  | c :: r => c.isDigit && digitsTailOk r

def digitsOk : List Char → Bool
  | [] => false
  | c :: r => c.isDigit && digitsTailOk r

def digitsVal (cs : List Char) : Nat :=
  (cs.filter (fun c => c != '_')).foldl (fun n c => 10 * n + (c.toNat - '0'.toNat)) 0

def pyIntOfChars : List Char → Option Int
  | '+' :: r => if digitsOk r then some (digitsVal r) else none
  | '-' :: r => if digitsOk r then some (-(digitsVal r : Int)) else none
  | cs => if digitsOk cs then some (digitsVal cs) else none

/-- Whitespace stripping from both ends, as `int(...)` performs. -/
def pyStrip (cs : List Char) : List Char :=
  ((cs.dropWhile Char.isWhitespace).reverse.dropWhile Char.isWhitespace).reverse

/-- `int(s)` for a Python string `s`; `none` models a raised `ValueError`. -/
def pyInt (s : String) : Option Int :=
  pyIntOfChars (pyStrip s.data)

/-! ## Data model -/

/-- One document record of a discovery response body. -/
structure Document where
  id : String
  pardotId : String
  filename : String
deriving DecidableEq, Repr

/-- One element of the JSON array of a discovery response: a category with
its list of documents. -/
structure DocCategory where
  documents : List Document
deriving DecidableEq, Repr

/-- A browser-observed network response: its URL and its JSON body. -/
structure BrowserResponse where
  url : String
  json_body : List DocCategory
deriving DecidableEq, Repr

/-- A ResourceRecord as built by `process_benchmark_response`. -/
structure BenchmarkResource where
  resource_id : String
  resource_filename : String
  resource_pdf_url : String
deriving DecidableEq, Repr

/-- The per-technology record of `technologies_dict`. -/
structure TechRecord where
  tech_path : String
  resource_list : List BenchmarkResource
deriving DecidableEq, Repr

/-- One item of the catalog JSON: `{id, title}`. -/
structure CatalogItem where
  id : Nat
  title : String
deriving DecidableEq, Repr

/-- The response to the catalog GET.  `json_body = none` models a body that
is not valid JSON (so `response.json()` raises). -/
structure CatalogResponse where
  status : Nat
  json_body : Option (List (String × List CatalogItem))
deriving DecidableEq, Repr

/-- Outcome of `fetch_technology_categories`: the returned mapping (or
`none` when an error was raised) together with the directories created. -/
structure FetchResult where
  result : Option (List (String × String))
  dirs_created : List String
deriving DecidableEq, Repr

/-- An HTTP GET issued by the download worker. -/
structure HttpRequest where
  url : String
  cookie_documentId : String
deriving DecidableEq, Repr

/-- The response the download worker receives; `content_length` is the raw
`content-length` header when present. -/
structure HttpResponse where
  status : Nat
  content_length : Option String
  body : List Nat
deriving DecidableEq, Repr

/-- The filesystem: a mapping from paths to file contents (bytes). -/
abbrev Fs : Type := List (String × List Nat)

/-- How one call of `download_benchmark_file` ended. -/
inductive DlOutcome where
  | skipped
  | downloaded
  | httpError (status : Nat)
  | valueError
deriving DecidableEq, Repr

/-- Observable effects of one call of `download_benchmark_file`. -/
structure DlResult where
  outcome : DlOutcome
  fs : Fs
  requests : List HttpRequest
  prints : List String
  total_size : Option Int
deriving DecidableEq, Repr

/-- An error aborting the download loop of `main`. -/
inductive RunError where
  | http (status : Nat)
  | value
deriving DecidableEq, Repr

/-! ## The source functions -/

/-- `extract_document_info`: flattens the JSON body into a Python dict from
document id to `(pardot-id, filename)`; a repeated id overwrites the earlier
entry (`document_info[document["id"]] = ...`). -/
def extract_document_info (json_data : List DocCategory) :
    List (String × String × String) :=
  json_data.foldl
    (fun acc category =>
      category.documents.foldl
        (fun acc document =>
          dictInsert acc document.id (document.pardotId, document.filename))
        acc)
    []

/-- `fetch_technology_categories`, applied to the response of the catalog
GET.  The source never inspects the status code: it calls `response.json()`
(fatal only on a body that is not valid JSON) and then builds
`technology_paths` and creates one directory per item. -/
def fetch_technology_categories (response : CatalogResponse) : FetchResult :=
  match response.json_body with
  | none => { result := none, dirs_created := [] }
  | some categories_dict =>
    let folded := categories_dict.foldl
      (fun (acc : List (String × String) × List String) category =>
        category.2.foldl
          (fun (acc : List (String × String) × List String) item =>
            let full_folder_path := os_path_join category.1 item.title
            (dictInsert acc.1 (toString item.id) full_folder_path,
             acc.2 ++ [full_folder_path]))
          acc)
      ([], [])
    { result := some folded.1, dirs_created := folded.2 }

/-- The ResourceRecords built by the inner loop of
`process_benchmark_response` from one technology's path and one extracted
`document_info` dict. -/
def mkResources (tech_path : String)
    (document_info : List (String × String × String)) :
    List BenchmarkResource :=
  document_info.map
    (fun entry =>
      { resource_id := entry.1
        resource_filename := os_path_join tech_path entry.2.2
        resource_pdf_url := "https://learn.cisecurity.org" ++ entry.2.1 })

/-- `process_benchmark_response`: for every technology id whose
`<id>/benchmarks/latest` suffix matches the response URL, append one
ResourceRecord per extracted document to that technology's resource list. -/
def process_benchmark_response (response : BrowserResponse)
    (technologies_dict : List (String × TechRecord)) :
    List (String × TechRecord) :=
  technologies_dict.map
    (fun entry =>
      if pyEndswith response.url (entry.1 ++ "/benchmarks/latest") then
        (entry.1,
         { entry.2 with
             resource_list := entry.2.resource_list ++
               mkResources entry.2.tech_path
                 (extract_document_info response.json_body) })
      else entry)

/-- `int(response.headers.get("content-length", 0))`: the default `0` is
used when the header is absent; a present but unparseable header makes
`int` raise `ValueError` (`none`). -/
def total_size_of (content_length : Option String) : Option Int :=
  match content_length with
  | none => some 0
  | some s => pyInt s

/-- `download_benchmark_file` over the filesystem `fs` and the HTTP oracle
`http`.  The existence check precedes any request; `raise_for_status`
raises exactly for statuses in `[400, 600)`; the `content-length` header is
parsed next; only then is the body written. -/
def download_benchmark_file (document_id download_url file_path
    progress_indicator : String) (http : HttpRequest → HttpResponse)
    (fs : Fs) : DlResult :=
  let file_name := os_path_basename file_path
  if (dictGet fs file_path).isSome then
    { outcome := .skipped
      fs := fs
      requests := []
      prints :=
        ["\r" ++ progress_indicator ++ " File already exists: " ++ file_name]
      total_size := none }
  else
    let req : HttpRequest :=
      { url := download_url, cookie_documentId := document_id }
    let response := http req
    if 400 ≤ response.status ∧ response.status < 600 then
      { outcome := .httpError response.status
        fs := fs
        requests := [req]
        prints := []
        total_size := none }
    else
      match total_size_of response.content_length with
      | none =>
        { outcome := .valueError
          fs := fs
          requests := [req]
          prints := []
          total_size := none }
      | some n =>
        { outcome := .downloaded
          fs := dictInsert fs file_path response.body
          requests := [req]
          prints := []
          total_size := some n }

/-- The progress indicator `f"{current}/{total}"` of `main`. -/
def mkLabel (current total : Nat) : String :=
  Nat.repr current ++ "/" ++ Nat.repr total

/-- The download loop of `main`: sequential, one counter incremented per
benchmark, aborting on the first raised error.  Returns the final
filesystem, the (label, benchmark) steps actually processed, and the error
that aborted the loop, if any. -/
def run_downloads (http : HttpRequest → HttpResponse) :
    List BenchmarkResource → Fs → Nat → Nat →
    Fs × List (String × BenchmarkResource) × Option RunError
  | [], fs, _, _ => (fs, [], none)
  | b :: rest, fs, current, total =>
    let label := mkLabel current total
    let r := download_benchmark_file b.resource_id b.resource_pdf_url
      b.resource_filename label http fs
    match r.outcome with
    | .httpError s => (r.fs, [(label, b)], some (.http s))
    | .valueError => (r.fs, [(label, b)], some .value)
    | _ =>
      let rec_result := run_downloads http rest r.fs (current + 1) total
      (rec_result.1, (label, b) :: rec_result.2.1, rec_result.2.2)

/-- The tally loop of `main`: total benchmark count across technologies,
computed before any download. -/
def tally (technologies_dict : List (String × TechRecord)) : Nat :=
  technologies_dict.foldl (fun n t => n + t.2.resource_list.length) 0

/-- The benchmarks in the order `main` downloads them: technologies in
mapping order, resources in append order. -/
def resources_in_order (technologies_dict : List (String × TechRecord)) :
    List BenchmarkResource :=
  (technologies_dict.map (fun t => t.2.resource_list)).flatten

/-- The download phase of `main`. -/
def main_downloads (technologies_dict : List (String × TechRecord))
    (http : HttpRequest → HttpResponse) (fs : Fs) :
    Fs × List (String × BenchmarkResource) × Option RunError :=
  run_downloads http (resources_in_order technologies_dict) fs 1
    (tally technologies_dict)

/-! ## Auxiliary definitions for the proofs -/

/-- A 2xx ("successful") HTTP status. -/
def is2xx (s : Nat) : Bool :=
  200 ≤ s && s < 300

/-- The request `download_benchmark_file` issues: the download URL with the
cookie `documentId=<document-id>`. -/
def mkReq (download_url document_id : String) : HttpRequest :=
  { url := download_url, cookie_documentId := document_id }

/-- Keys of a Python dict stay pairwise distinct under item assignment. -/
def NodupKeys {α : Type} (m : List (String × α)) : Prop :=
  (m.map Prod.fst).Nodup

/-- The inner dict-building loop of `extract_document_info`, over a flat
list of documents. -/
def docFold (acc : List (String × String × String)) (l : List Document) :
    List (String × String × String) :=
  l.foldl
    (fun acc document =>
      dictInsert acc document.id (document.pardotId, document.filename))
    acc

/-- All documents of a response body, categories in order. -/
def docsOf (json_data : List DocCategory) : List Document :=
  (json_data.map (fun c => c.documents)).flatten

/-! ## Concrete sample data for witnesses and counterexamples -/

/-- A technology record as set up by `main`: path from the catalog, empty
resource list. -/
def sampleTech : TechRecord :=
  { tech_path := "Operating Systems/Linux", resource_list := [] }

def sampleTechs : List (String × TechRecord) :=
  [("7", sampleTech)]

/-- A discovery response whose document has a well-behaved relative
filename. -/
def sampleResp : BrowserResponse :=
  { url := "https://workbench.cisecurity.org/api/vendor/v1/cis/technology/7/benchmarks/latest"
    json_body := [{ documents := [{ id := "d1", pardotId := "/p1", filename := "bench.pdf" }] }] }

/-- A discovery response whose document carries an absolute path as its
filename. -/
def sampleRespAbs : BrowserResponse :=
  { url := "https://workbench.cisecurity.org/api/vendor/v1/cis/technology/7/benchmarks/latest"
    json_body := [{ documents := [{ id := "d1", pardotId := "/p1", filename := "/etc/passwd" }] }] }

/-- A discovery response listing the same document id twice with different
payloads. -/
def sampleRespDup : BrowserResponse :=
  { url := "https://workbench.cisecurity.org/api/vendor/v1/cis/technology/7/benchmarks/latest"
    json_body := [{ documents :=
        [{ id := "d1", pardotId := "/p1", filename := "a.pdf" },
         { id := "d1", pardotId := "/p2", filename := "b.pdf" }] }] }

/-- Two technologies whose ids end alike: "7" is a proper suffix of "17". -/
def sampleTechsSuffix : List (String × TechRecord) :=
  [("7", { tech_path := "A", resource_list := [] }),
   ("17", { tech_path := "B", resource_list := [] })]

/-- A response addressed to technology "17". -/
def sampleResp17 : BrowserResponse :=
  { url := "https://workbench.cisecurity.org/api/vendor/v1/cis/technology/17/benchmarks/latest"
    json_body := [{ documents := [{ id := "d1", pardotId := "/p1", filename := "b.pdf" }] }] }

/-- A catalog response with a non-2xx status but a well-formed JSON body. -/
def sampleCatalog404 : CatalogResponse :=
  { status := 404
    json_body := some [("Operating Systems", [{ id := 7, title := "Linux" }])] }

/-- An HTTP oracle always answering 200 with a parseable length. -/
def sampleHttpOk : HttpRequest → HttpResponse :=
  fun _ => { status := 200, content_length := some "4", body := [1, 2, 3, 4] }

/-- An HTTP oracle answering 200 with an unparseable `content-length`. -/
def sampleHttpBadLen : HttpRequest → HttpResponse :=
  fun _ => { status := 200, content_length := some "abc", body := [1] }

/-- An HTTP oracle answering 200 without a `content-length` header. -/
def sampleHttpNoLen : HttpRequest → HttpResponse :=
  fun _ => { status := 200, content_length := none, body := [] }

/-- An HTTP oracle answering 304: not a success, yet not raised on by
`raise_for_status`. -/
def sampleHttp304 : HttpRequest → HttpResponse :=
  fun _ => { status := 304, content_length := some "1", body := [9] }

/-- An HTTP oracle answering 404. -/
def sampleHttp404 : HttpRequest → HttpResponse :=
  fun _ => { status := 404, content_length := none, body := [] }

/-- A benchmark as appended by discovery. -/
def sampleBenchmark : BenchmarkResource :=
  { resource_id := "d1", resource_filename := "T/a.pdf", resource_pdf_url := "u1" }

/-- Two technologies with pending resources for exercising the loop of
`main`. -/
def sampleTechsLoaded : List (String × TechRecord) :=
  [("7", { tech_path := "T"
           resource_list :=
             [sampleBenchmark,
              { resource_id := "d2", resource_filename := "T/b.pdf",
                resource_pdf_url := "u2" }] })]

/-! ## Dictionary lemmas -/

theorem dictInsert_cons_pos {α : Type} (a : String × α) (m : List (String × α))
    (k : String) (v : α) (h : (a.1 == k) = true) :
    dictInsert (a :: m) k v =
      (k, v) :: m.map (fun p => if p.1 == k then (k, v) else p) := by
  have ha : a.1 = k := eq_of_beq h
  unfold dictInsert
  simp [List.any_cons, h, ha]

theorem dictInsert_cons_neg {α : Type} (a : String × α) (m : List (String × α))
    (k : String) (v : α) (h : (a.1 == k) = false) :
    dictInsert (a :: m) k v = a :: dictInsert m k v := by
  unfold dictInsert
  simp only [List.any_cons, h, Bool.false_or]
  have ha : ¬ a.1 = k := ne_of_beq_false h
  by_cases hm : m.any (fun p => p.1 == k) = true
  · simp [hm, h, ha]
  · simp only [Bool.not_eq_true] at hm
    simp [hm]

theorem find?_key_map_replace {α : Type} (k k' : String) (v : α)
    (hk : (k == k') = false) (m : List (String × α)) :
    (m.map (fun p => if p.1 == k then (k, v) else p)).find?
        (fun p => p.1 == k') =
      m.find? (fun p => p.1 == k') := by
  induction m with
  | nil => rfl
  | cons a m ih =>
    rw [List.map_cons]
    by_cases ha : (a.1 == k) = true
    · have ha1 : a.1 = k := eq_of_beq ha
      have hga : (if a.1 == k then (k, v) else a) = (k, v) := by
        simp [ha]
      have ha' : (a.1 == k') = false := by
        rw [ha1]
        exact hk
      rw [hga, List.find?_cons_of_neg, List.find?_cons_of_neg]
      · exact ih
      · simp [ha']
      · simp [hk]
    · simp only [Bool.not_eq_true] at ha
      have hga : (if a.1 == k then (k, v) else a) = a := by
        simp [ha]
      rw [hga]
      by_cases ha' : (a.1 == k') = true
      · rw [List.find?_cons_of_pos, List.find?_cons_of_pos]
        · exact ha'
        · exact ha'
      · simp only [Bool.not_eq_true] at ha'
        rw [List.find?_cons_of_neg, List.find?_cons_of_neg]
        · exact ih
        · simp [ha']
        · simp [ha']

theorem dictGet_insert_self {α : Type} (m : List (String × α)) (k : String)
    (v : α) : dictGet (dictInsert m k v) k = some v := by
  induction m with
  | nil =>
    simp [dictInsert, dictGet]
  | cons a m ih =>
    by_cases h : (a.1 == k) = true
    · rw [dictInsert_cons_pos a m k v h]
      simp [dictGet, List.find?_cons]
    · simp only [Bool.not_eq_true] at h
      rw [dictInsert_cons_neg a m k v h]
      simpa [dictGet, List.find?_cons, h] using ih

theorem dictGet_insert_ne {α : Type} (m : List (String × α)) (k k' : String)
    (v : α) (h : ¬ k = k') :
    dictGet (dictInsert m k v) k' = dictGet m k' := by
  have hk : (k == k') = false := beq_eq_false_iff_ne.mpr h
  unfold dictInsert dictGet
  by_cases hm : m.any (fun p => p.1 == k) = true
  · simp only [hm, if_true]
    rw [find?_key_map_replace k k' v hk m]
  · simp only [Bool.not_eq_true] at hm
    simp only [hm, Bool.false_eq_true, if_false, List.find?_append]
    have : ([(k, v)].find? (fun p => p.1 == k')) = none := by
      simp [List.find?_cons, hk]
    rw [this, Option.or_none]

theorem nodupKeys_insert {α : Type} (m : List (String × α)) (k : String)
    (v : α) (h : NodupKeys m) : NodupKeys (dictInsert m k v) := by
  unfold NodupKeys dictInsert
  by_cases hm : m.any (fun p => p.1 == k) = true
  · simp only [hm, if_true, List.map_map]
    have : (m.map (Prod.fst ∘ fun p => if p.1 == k then (k, v) else p)) =
        m.map Prod.fst := by
      apply List.map_congr_left
      intro p _
      by_cases hp : (p.1 == k) = true
      · have hp1 : p.1 = k := eq_of_beq hp
        simp [Function.comp, hp, hp1]
      · simp only [Bool.not_eq_true] at hp
        simp [Function.comp, hp]
    rw [this]
    exact h
  · simp only [Bool.not_eq_true] at hm
    simp only [hm, Bool.false_eq_true, if_false, List.map_append]
    rw [List.nodup_append]
    refine ⟨h, by simp, ?_⟩
    intro x hx
    simp only [List.mem_map] at hx
    obtain ⟨p, hp, hpx⟩ := hx
    simp only [List.any_eq_false] at hm
    have := hm p hp
    simp only [List.map_cons, List.map_nil, List.mem_singleton]
    intro hxk
    apply this
    rw [beq_iff_eq, hpx, hxk]

/-! ## Lemmas about `extract_document_info` -/

theorem docFold_append (acc : List (String × String × String))
    (l₁ l₂ : List Document) :
    docFold acc (l₁ ++ l₂) = docFold (docFold acc l₁) l₂ := by
  unfold docFold
  exact List.foldl_append _ _ l₁ l₂

theorem extract_eq_docFold (json_data : List DocCategory) :
    extract_document_info json_data = docFold [] (docsOf json_data) := by
  suffices h : ∀ (L : List DocCategory) (acc : List (String × String × String)),
      L.foldl (fun acc category => docFold acc category.documents) acc =
        docFold acc (docsOf L) by
    exact h json_data []
  intro L
  induction L with
  | nil =>
    intro acc
    rfl
  | cons c L ih =>
    intro acc
    simp only [List.foldl_cons, docsOf, List.map_cons, List.flatten_cons]
    rw [docFold_append]
    exact ih (docFold acc c.documents)

theorem dictGet_docFold_not_mem (l : List Document) (k : String) :
    ∀ acc, (∀ d ∈ l, ¬ d.id = k) →
      dictGet (docFold acc l) k = dictGet acc k := by
  induction l with
  | nil =>
    intro acc _
    rfl
  | cons d l ih =>
    intro acc h
    have hd : ¬ d.id = k := h d (List.mem_cons_self d l)
    have hl : ∀ e ∈ l, ¬ e.id = k := fun e he => h e (List.mem_cons_of_mem d he)
    unfold docFold
    rw [List.foldl_cons]
    have := ih (dictInsert acc d.id (d.pardotId, d.filename)) hl
    unfold docFold at this
    rw [this]
    exact dictGet_insert_ne acc d.id k (d.pardotId, d.filename) hd

theorem docFold_nodupKeys (l : List Document) :
    ∀ acc, NodupKeys acc → NodupKeys (docFold acc l) := by
  induction l with
  | nil =>
    intro acc h
    exact h
  | cons d l ih =>
    intro acc h
    unfold docFold
    rw [List.foldl_cons]
    exact ih _ (nodupKeys_insert acc d.id (d.pardotId, d.filename) h)

theorem extract_nodupKeys (json_data : List DocCategory) :
    NodupKeys (extract_document_info json_data) := by
  rw [extract_eq_docFold]
  exact docFold_nodupKeys (docsOf json_data) [] (by simp [NodupKeys])

theorem countP_key_le_one {α : Type} (m : List (String × α)) (k : String)
    (h : NodupKeys m) : m.countP (fun p => p.1 == k) ≤ 1 := by
  have h1 : m.countP (fun p => p.1 == k) =
      (m.map Prod.fst).countP (fun x => x == k) := by
    rw [List.countP_map]
    rfl
  have h2 : (m.map Prod.fst).countP (fun x => x == k) =
      (m.map Prod.fst).count k := by
    rfl
  rw [h1, h2]
  exact List.nodup_iff_count_le_one.mp h k

/-! ## String and path lemmas -/

theorem isPrefixOf_append (l₁ l₂ : List Char) :
    l₁.isPrefixOf (l₁ ++ l₂) = true := by
  rw [List.isPrefixOf_iff_prefix]
  exact List.prefix_append l₁ l₂

theorem pyStartswith_append (a b : String) :
    pyStartswith (a ++ b) a = true := by
  unfold pyStartswith
  rw [String.data_append]
  exact isPrefixOf_append a.data b.data

theorem os_path_join_abs (a b : String) (h : pyStartswith b "/" = true) :
    os_path_join a b = b := by
  unfold os_path_join
  simp [h]

theorem os_path_join_rel (a b : String) (hb : pyStartswith b "/" = false)
    (ha1 : ¬ a = "") (ha2 : pyEndswith a "/" = false) :
    os_path_join a b = a ++ "/" ++ b := by
  unfold os_path_join
  have ha1' : (a == "") = false := beq_eq_false_iff_ne.mpr ha1
  simp [hb, ha1', ha2]

theorem rooted_under_join (a b : String) : rooted_under (a ++ "/" ++ b) a = true := by
  unfold rooted_under
  have : pyStartswith (a ++ "/" ++ b) (a ++ "/") = true := by
    exact pyStartswith_append (a ++ "/") b
  rw [this]
  simp

theorem pyEndswith_of_suffix (url t₁ t₂ s : String)
    (h : t₁.data <:+ t₂.data) (hu : pyEndswith url (t₂ ++ s) = true) :
    pyEndswith url (t₁ ++ s) = true := by
  unfold pyEndswith at hu ⊢
  rw [String.data_append] at hu ⊢
  rw [List.isSuffixOf_iff_suffix] at hu ⊢
  have h1 : t₁.data ++ s.data <:+ t₂.data ++ s.data := by
    obtain ⟨u, hu2⟩ := h
    exact ⟨u, by rw [← hu2, List.append_assoc]⟩
  exact h1.trans hu

/-! ## Lemmas about discovery and the download loop -/

theorem process_mem_matched (resp : BrowserResponse)
    (techs : List (String × TechRecord)) (tid : String) (rec : TechRecord)
    (h : (tid, rec) ∈ techs)
    (hm : pyEndswith resp.url (tid ++ "/benchmarks/latest") = true) :
    (tid, { rec with
              resource_list := rec.resource_list ++
                mkResources rec.tech_path
                  (extract_document_info resp.json_body) }) ∈
      process_benchmark_response resp techs := by
  unfold process_benchmark_response
  have hmem := List.mem_map_of_mem
    (f := fun entry : String × TechRecord =>
      if pyEndswith resp.url (entry.1 ++ "/benchmarks/latest") then
        (entry.1,
         { entry.2 with
             resource_list := entry.2.resource_list ++
               mkResources entry.2.tech_path
                 (extract_document_info resp.json_body) })
      else entry) h
  simpa [hm] using hmem

theorem process_mem_unmatched (resp : BrowserResponse)
    (techs : List (String × TechRecord)) (tid : String) (rec : TechRecord)
    (h : (tid, rec) ∈ techs)
    (hm : pyEndswith resp.url (tid ++ "/benchmarks/latest") = false) :
    (tid, rec) ∈ process_benchmark_response resp techs := by
  unfold process_benchmark_response
  have hmem := List.mem_map_of_mem
    (f := fun entry : String × TechRecord =>
      if pyEndswith resp.url (entry.1 ++ "/benchmarks/latest") then
        (entry.1,
         { entry.2 with
             resource_list := entry.2.resource_list ++
               mkResources entry.2.tech_path
                 (extract_document_info resp.json_body) })
      else entry) h
  simpa [hm] using hmem

theorem mkResources_mem (path : String)
    (info : List (String × String × String)) (rid pid fn : String)
    (h : (rid, (pid, fn)) ∈ info) :
    ({ resource_id := rid, resource_filename := os_path_join path fn,
       resource_pdf_url := "https://learn.cisecurity.org" ++ pid } :
      BenchmarkResource) ∈ mkResources path info := by
  unfold mkResources
  exact List.mem_map_of_mem _ h

theorem mkResources_countP (path : String)
    (info : List (String × String × String)) (rid : String) :
    (mkResources path info).countP (fun r => r.resource_id == rid) =
      info.countP (fun e => e.1 == rid) := by
  unfold mkResources
  rw [List.countP_map]
  rfl

theorem countP_key_eq_one (json_data : List DocCategory) (rid pid fn : String)
    (h : (rid, (pid, fn)) ∈ extract_document_info json_data) :
    (extract_document_info json_data).countP (fun e => e.1 == rid) = 1 := by
  have hle := countP_key_le_one (extract_document_info json_data) rid
    (extract_nodupKeys json_data)
  have hpos : 0 < (extract_document_info json_data).countP
      (fun e => e.1 == rid) := by
    rw [List.countP_pos_iff]
    exact ⟨(rid, (pid, fn)), h, by simp⟩
  omega

/-- Every step of the loop of `main` with a successful or skipped download
continues with the incremented counter; an error stops it.  When the loop
finishes without error, the steps processed are exactly the input
benchmarks, in order, with labels `c/t`, `c+1/t`, .... -/
theorem run_downloads_steps (http : HttpRequest → HttpResponse) :
    ∀ (bs : List BenchmarkResource) (fs : Fs) (c t : Nat),
      (run_downloads http bs fs c t).2.2 = none →
      (run_downloads http bs fs c t).2.1.map Prod.fst =
          (List.range' c bs.length).map (fun i => mkLabel i t) ∧
        (run_downloads http bs fs c t).2.1.map Prod.snd = bs := by
  intro bs
  induction bs with
  | nil =>
    intro fs c t _
    simp [run_downloads]
  | cons b rest ih =>
    intro fs c t herr
    rw [run_downloads] at herr ⊢
    cases ho : (download_benchmark_file b.resource_id b.resource_pdf_url
        b.resource_filename (mkLabel c t) http fs).outcome with
    | httpError s =>
      simp only [ho] at herr
      exact absurd herr (by simp)
    | valueError =>
      simp only [ho] at herr
      exact absurd herr (by simp)
    | skipped =>
      simp only [ho] at herr ⊢
      have := ih (download_benchmark_file b.resource_id b.resource_pdf_url
        b.resource_filename (mkLabel c t) http fs).fs (c + 1) t herr
      simp [List.range'_succ, this.1, this.2]
    | downloaded =>
      simp only [ho] at herr ⊢
      have := ih (download_benchmark_file b.resource_id b.resource_pdf_url
        b.resource_filename (mkLabel c t) http fs).fs (c + 1) t herr
      simp [List.range'_succ, this.1, this.2]

theorem tally_foldl (techs : List (String × TechRecord)) :
    ∀ a, techs.foldl (fun n t => n + t.2.resource_list.length) a =
      a + ((techs.map (fun t => t.2.resource_list)).map List.length).sum := by
  induction techs with
  | nil =>
    intro a
    simp
  | cons t techs ih =>
    intro a
    simp only [List.foldl_cons, List.map_cons, List.sum_cons]
    rw [ih]
    omega

theorem tally_eq_length (techs : List (String × TechRecord)) :
    tally techs = (resources_in_order techs).length := by
  unfold tally resources_in_order
  rw [List.length_flatten, tally_foldl techs 0]
  omega

/-! ## Lemmas about the download worker -/

theorem download_requests_when_absent (document_id download_url file_path
    label : String) (http : HttpRequest → HttpResponse) (fs : Fs)
    (hfs : dictGet fs file_path = none) :
    (download_benchmark_file document_id download_url file_path label http
        fs).requests = [mkReq download_url document_id] := by
  unfold download_benchmark_file mkReq
  simp only [hfs, Option.isSome_none, Bool.false_eq_true, if_false]
  by_cases hst : 400 ≤ (http { url := download_url, cookie_documentId := document_id }).status ∧ (http { url := download_url, cookie_documentId := document_id }).status < 600
  · simp [hst]
  · simp only [hst, if_false]
    cases h : total_size_of ((http { url := download_url, cookie_documentId := document_id }).content_length) <;> simp [h]

theorem download_http_error (document_id download_url file_path
    label : String) (http : HttpRequest → HttpResponse) (fs : Fs)
    (hfs : dictGet fs file_path = none)
    (hst : 400 ≤ (http (mkReq download_url document_id)).status)
    (hst2 : (http (mkReq download_url document_id)).status < 600) :
    download_benchmark_file document_id download_url file_path label http fs =
      { outcome := .httpError (http (mkReq download_url document_id)).status
        fs := fs
        requests := [mkReq download_url document_id]
        prints := []
        total_size := none } := by
  unfold download_benchmark_file mkReq
  unfold mkReq at hst hst2
  simp [hfs, hst, hst2]

/-! ## The claims -/

/-- **C4** (confirmed).  For every destination path that already exists,
with any content (including an empty file), `download_benchmark_file`
prints the skip indicator and returns immediately: it issues zero HTTP
requests and leaves the filesystem — in particular the existing file's
contents — unchanged. -/
theorem c4_existing_file_skips (document_id download_url file_path
    label : String) (http : HttpRequest → HttpResponse) (fs : Fs)
    (content : List Nat) (h : dictGet fs file_path = some content) :
    download_benchmark_file document_id download_url file_path label http fs =
      { outcome := .skipped
        fs := fs
        requests := []
        prints := ["\r" ++ label ++ " File already exists: " ++
          os_path_basename file_path]
        total_size := none } := by
  unfold download_benchmark_file
  simp [h]

/-- Witness for C4: a destination that exists with empty content is
skipped — no request, filesystem unchanged. -/
theorem c4_existing_file_skips_witness :
    download_benchmark_file "d1" "u" "p" "1/1" sampleHttpOk [("p", [])] =
      { outcome := .skipped
        fs := [("p", [])]
        requests := []
        prints := ["\r" ++ "1/1" ++ " File already exists: " ++
          os_path_basename "p"]
        total_size := none } :=
  c4_existing_file_skips "d1" "u" "p" "1/1" sampleHttpOk [("p", [])] []
    (by rfl)

/-- **C2** (corrected).  `fetch_technology_categories` raises — creating no
directory — exactly when the body is not valid JSON; the HTTP status is
never examined, so a non-2xx response with a valid JSON body is processed
normally. -/
theorem c2_malformed_json_fatal_status_ignored (resp : CatalogResponse) :
    ((fetch_technology_categories resp).result = none ↔
      resp.json_body = none) ∧
    (resp.json_body = none →
      fetch_technology_categories resp = { result := none, dirs_created := [] }) ∧
    (∀ s : Nat, fetch_technology_categories { resp with status := s } =
      fetch_technology_categories resp) := by
  refine ⟨?_, ?_, ?_⟩
  · cases hb : resp.json_body <;> simp [fetch_technology_categories, hb]
  · intro hb
    simp [fetch_technology_categories, hb]
  · intro s
    cases resp
    rfl

/-- Witness for C2: a body that is not valid JSON aborts the fetch with no
directories created. -/
theorem c2_malformed_json_fatal_status_ignored_witness :
    fetch_technology_categories { status := 500, json_body := none } =
      { result := none, dirs_created := [] } :=
  (c2_malformed_json_fatal_status_ignored
    { status := 500, json_body := none }).2.1 rfl

/-- Counterexample to C2 as stated: a 404 catalog response with a valid
JSON body is not fatal — the fetcher returns a mapping built from it and
creates its directory. -/
theorem c2_counterexample_non2xx_processed :
    fetch_technology_categories sampleCatalog404 =
      { result := some [("7", "Operating Systems/Linux")]
        dirs_created := ["Operating Systems/Linux"] } ∧
    is2xx sampleCatalog404.status = false := by
  constructor
  · rfl
  · rfl

/-- **C3** (corrected).  The expected total is read from the
`content-length` header: absent header gives `int(0) = 0`; a present,
parseable header gives its integer value; but a present, unparseable
header makes `int(...)` raise `ValueError` — the default 0 only covers the
absent case, not the unparseable one. -/
theorem c3_content_length_semantics (document_id download_url file_path
    label : String) (http : HttpRequest → HttpResponse) (fs : Fs)
    (hfs : dictGet fs file_path = none)
    (hst : ¬ (400 ≤ (http (mkReq download_url document_id)).status ∧
      (http (mkReq download_url document_id)).status < 600)) :
    ((http (mkReq download_url document_id)).content_length = none →
      (download_benchmark_file document_id download_url file_path label http
          fs).outcome = DlOutcome.downloaded ∧
      (download_benchmark_file document_id download_url file_path label http
          fs).total_size = some 0) ∧
    (∀ s n, (http (mkReq download_url document_id)).content_length = some s →
      pyInt s = some n →
      (download_benchmark_file document_id download_url file_path label http
          fs).outcome = DlOutcome.downloaded ∧
      (download_benchmark_file document_id download_url file_path label http
          fs).total_size = some n) ∧
    (∀ s, (http (mkReq download_url document_id)).content_length = some s →
      pyInt s = none →
      (download_benchmark_file document_id download_url file_path label http
          fs).outcome = DlOutcome.valueError) := by
  unfold mkReq at hst
  refine ⟨?_, ?_, ?_⟩
  · intro hcl
    unfold mkReq at hcl
    constructor <;>
      simp [download_benchmark_file, hfs, hst, total_size_of, hcl]
  · intro s n hcl hpy
    unfold mkReq at hcl
    constructor <;>
      simp [download_benchmark_file, hfs, hst, total_size_of, hcl, hpy]
  · intro s hcl hpy
    unfold mkReq at hcl
    simp [download_benchmark_file, hfs, hst, total_size_of, hcl, hpy]

/-- Witness for C3: an absent `content-length` header yields total 0 and a
completed download. -/
theorem c3_content_length_semantics_witness :
    (download_benchmark_file "d1" "u" "p" "1/1" sampleHttpNoLen
        []).outcome = DlOutcome.downloaded ∧
    (download_benchmark_file "d1" "u" "p" "1/1" sampleHttpNoLen
        []).total_size = some 0 :=
  (c3_content_length_semantics "d1" "u" "p" "1/1" sampleHttpNoLen [] rfl
    (by decide)).1 rfl

/-- Counterexample to C3 as stated: a present but unparseable
`content-length` ("abc") on a 200 response does not default to 0 — the
worker raises (`int("abc")` is a `ValueError`). -/
theorem c3_counterexample_unparseable_raises :
    (download_benchmark_file "d1" "u" "p" "1/1" sampleHttpBadLen
        []).outcome = DlOutcome.valueError ∧
    (sampleHttpBadLen (mkReq "u" "d1")).content_length = some "abc" ∧
    is2xx (sampleHttpBadLen (mkReq "u" "d1")).status = true := by
  refine ⟨by decide, rfl, rfl⟩

/-- **C5** (corrected).  A download whose response status is 4xx or 5xx
(the statuses `raise_for_status` raises on) raises, and the download loop
of `main` terminates right there: the benchmark at hand is the last step,
no later resource is touched, and the filesystem — holding every file
downloaded earlier in the sequence — is returned unchanged. -/
theorem c5_http_4xx_5xx_aborts_loop (http : HttpRequest → HttpResponse)
    (fs : Fs) (b : BenchmarkResource) (rest : List BenchmarkResource)
    (c t : Nat)
    (hfs : dictGet fs b.resource_filename = none)
    (hst : 400 ≤ (http (mkReq b.resource_pdf_url b.resource_id)).status)
    (hst2 : (http (mkReq b.resource_pdf_url b.resource_id)).status < 600) :
    (download_benchmark_file b.resource_id b.resource_pdf_url
        b.resource_filename (mkLabel c t) http fs).outcome =
      DlOutcome.httpError
        (http (mkReq b.resource_pdf_url b.resource_id)).status ∧
    run_downloads http (b :: rest) fs c t =
      (fs, [(mkLabel c t, b)],
       some (RunError.http
         (http (mkReq b.resource_pdf_url b.resource_id)).status)) := by
  have hd := download_http_error b.resource_id b.resource_pdf_url
    b.resource_filename (mkLabel c t) http fs hfs hst hst2
  constructor
  · rw [hd]
  · simp only [run_downloads, hd]

/-- Witness for C5: a 404 response aborts the loop at its first step with
the filesystem unchanged. -/
theorem c5_http_4xx_5xx_aborts_loop_witness :
    (download_benchmark_file sampleBenchmark.resource_id
        sampleBenchmark.resource_pdf_url sampleBenchmark.resource_filename
        (mkLabel 1 1) sampleHttp404 []).outcome =
      DlOutcome.httpError
        (sampleHttp404 (mkReq sampleBenchmark.resource_pdf_url
          sampleBenchmark.resource_id)).status ∧
    run_downloads sampleHttp404 [sampleBenchmark] [] 1 1 =
      ([], [(mkLabel 1 1, sampleBenchmark)],
       some (RunError.http
         (sampleHttp404 (mkReq sampleBenchmark.resource_pdf_url
           sampleBenchmark.resource_id)).status)) :=
  c5_http_4xx_5xx_aborts_loop sampleHttp404 [] sampleBenchmark [] 1 1 rfl
    (by decide) (by decide)

/-- Counterexample to C5 as stated: a 304 response is not 2xx, yet
`raise_for_status` does not raise on it — the worker writes the body as a
completed download and the loop continues to the end without error. -/
theorem c5_counterexample_304_not_fatal :
    (download_benchmark_file "d1" "u" "p" "1/1" sampleHttp304
        []).outcome = DlOutcome.downloaded ∧
    is2xx (sampleHttp304 (mkReq "u" "d1")).status = false ∧
    run_downloads sampleHttp304 [sampleBenchmark] [] 1 1 =
      ([("T/a.pdf", [9])], [(mkLabel 1 1, sampleBenchmark)], none) := by
  refine ⟨by decide, rfl, by decide⟩

/-- **C1** (corrected).  A discovered document's computed path is the
technology directory joined with the document's filename by `os.path.join`,
which discards the directory when the filename is absolute.  The invariant
therefore holds for every filename that is not an absolute path (the
technology path being nonempty and not ending in the separator, as catalog
paths `<category>/<title>` are): the record appended by
`process_benchmark_response` has `resource_filename =
tech_path ++ "/" ++ filename`, rooted under the technology directory. -/
theorem c1_relative_paths_rooted (resp : BrowserResponse)
    (techs : List (String × TechRecord)) (tid : String) (rec : TechRecord)
    (rid pid fn : String)
    (hmem : (tid, rec) ∈ techs)
    (hurl : pyEndswith resp.url (tid ++ "/benchmarks/latest") = true)
    (hdoc : (rid, (pid, fn)) ∈ extract_document_info resp.json_body)
    (habs : pyStartswith fn "/" = false)
    (hpath1 : ¬ rec.tech_path = "")
    (hpath2 : pyEndswith rec.tech_path "/" = false) :
    (tid, { rec with
              resource_list := rec.resource_list ++
                mkResources rec.tech_path
                  (extract_document_info resp.json_body) }) ∈
      process_benchmark_response resp techs ∧
    ∃ r ∈ mkResources rec.tech_path (extract_document_info resp.json_body),
      r.resource_id = rid ∧
      r.resource_filename = rec.tech_path ++ "/" ++ fn ∧
      rooted_under r.resource_filename rec.tech_path = true := by
  refine ⟨process_mem_matched resp techs tid rec hmem hurl, ?_⟩
  refine ⟨_, mkResources_mem rec.tech_path _ rid pid fn hdoc, rfl, ?_, ?_⟩
  · exact os_path_join_rel rec.tech_path fn habs hpath1 hpath2
  · show rooted_under (os_path_join rec.tech_path fn) rec.tech_path = true
    rw [os_path_join_rel rec.tech_path fn habs hpath1 hpath2]
    exact rooted_under_join rec.tech_path fn

/-- Witness for C1: a document with relative filename "bench.pdf" lands at
"Operating Systems/Linux/bench.pdf", under its technology directory. -/
theorem c1_relative_paths_rooted_witness :
    (("7", { sampleTech with
               resource_list := sampleTech.resource_list ++
                 mkResources sampleTech.tech_path
                   (extract_document_info sampleResp.json_body) }) ∈
      process_benchmark_response sampleResp sampleTechs) ∧
    ∃ r ∈ mkResources sampleTech.tech_path
        (extract_document_info sampleResp.json_body),
      r.resource_id = "d1" ∧
      r.resource_filename = sampleTech.tech_path ++ "/" ++ "bench.pdf" ∧
      rooted_under r.resource_filename sampleTech.tech_path = true :=
  c1_relative_paths_rooted sampleResp sampleTechs "7" sampleTech "d1" "/p1"
    "bench.pdf" (by decide) (by decide) (by decide) (by decide) (by decide)
    (by decide)

/-- Counterexample to C1 as stated: a document whose filename is the
absolute path "/etc/passwd" yields a ResourceRecord whose file path is
"/etc/passwd" itself, not a path under "Operating Systems/Linux". -/
theorem c1_counterexample_absolute_filename :
    process_benchmark_response sampleRespAbs sampleTechs =
      [("7", { tech_path := "Operating Systems/Linux"
               resource_list :=
                 [{ resource_id := "d1"
                    resource_filename := "/etc/passwd"
                    resource_pdf_url := "https://learn.cisecurity.org/p1" }] })] ∧
    rooted_under "/etc/passwd" "Operating Systems/Linux" = false := by
  refine ⟨by decide, by decide⟩

/-- **C6** (confirmed).  Each discovered document yields a ResourceRecord
with `pdf_url = "https://learn.cisecurity.org" ++ pardot-id` and
`file_path = os.path.join(tech_path, filename)`, and the download for that
record issues exactly one GET, to that URL with the cookie
`documentId = document-id`. -/
theorem c6_record_fields_and_cookie (resp : BrowserResponse)
    (techs : List (String × TechRecord)) (tid : String) (rec : TechRecord)
    (rid pid fn : String)
    (hmem : (tid, rec) ∈ techs)
    (hurl : pyEndswith resp.url (tid ++ "/benchmarks/latest") = true)
    (hdoc : (rid, (pid, fn)) ∈ extract_document_info resp.json_body) :
    (tid, { rec with
              resource_list := rec.resource_list ++
                mkResources rec.tech_path
                  (extract_document_info resp.json_body) }) ∈
      process_benchmark_response resp techs ∧
    ({ resource_id := rid
       resource_filename := os_path_join rec.tech_path fn
       resource_pdf_url := "https://learn.cisecurity.org" ++ pid } :
      BenchmarkResource) ∈
      mkResources rec.tech_path (extract_document_info resp.json_body) ∧
    ∀ (label : String) (http : HttpRequest → HttpResponse) (fs : Fs),
      dictGet fs (os_path_join rec.tech_path fn) = none →
      (download_benchmark_file rid ("https://learn.cisecurity.org" ++ pid)
          (os_path_join rec.tech_path fn) label http fs).requests =
        [mkReq ("https://learn.cisecurity.org" ++ pid) rid] := by
  refine ⟨process_mem_matched resp techs tid rec hmem hurl,
          mkResources_mem rec.tech_path _ rid pid fn hdoc, ?_⟩
  intro label http fs hfs
  exact download_requests_when_absent rid
    ("https://learn.cisecurity.org" ++ pid) (os_path_join rec.tech_path fn)
    label http fs hfs

/-- Witness for C6: the sample document "d1" with pardot-id "/p1" produces
the URL "https://learn.cisecurity.org/p1" and its download carries the
cookie documentId=d1. -/
theorem c6_record_fields_and_cookie_witness :
    (("7", { sampleTech with
               resource_list := sampleTech.resource_list ++
                 mkResources sampleTech.tech_path
                   (extract_document_info sampleResp.json_body) }) ∈
      process_benchmark_response sampleResp sampleTechs) ∧
    ({ resource_id := "d1"
       resource_filename := os_path_join sampleTech.tech_path "bench.pdf"
       resource_pdf_url := "https://learn.cisecurity.org" ++ "/p1" } :
      BenchmarkResource) ∈
      mkResources sampleTech.tech_path
        (extract_document_info sampleResp.json_body) ∧
    (download_benchmark_file "d1" ("https://learn.cisecurity.org" ++ "/p1")
        (os_path_join sampleTech.tech_path "bench.pdf") "1/1" sampleHttpOk
        []).requests =
      [mkReq ("https://learn.cisecurity.org" ++ "/p1") "d1"] :=
  ⟨(c6_record_fields_and_cookie sampleResp sampleTechs "7" sampleTech "d1"
      "/p1" "bench.pdf" (by decide) (by decide) (by decide)).1,
   (c6_record_fields_and_cookie sampleResp sampleTechs "7" sampleTech "d1"
      "/p1" "bench.pdf" (by decide) (by decide) (by decide)).2.1,
   (c6_record_fields_and_cookie sampleResp sampleTechs "7" sampleTech "d1"
      "/p1" "bench.pdf" (by decide) (by decide) (by decide)).2.2 "1/1"
     sampleHttpOk [] rfl⟩

/-- **C7** (confirmed).  `main` computes the total resource count before
any download; the loop then processes exactly the resources in catalog
mapping order, resources in append order, labelling the i-th download
`i/N` for i = 1..N with N the precomputed total. -/
theorem c7_sequential_labels (techs : List (String × TechRecord))
    (http : HttpRequest → HttpResponse) (fs : Fs) :
    tally techs = (resources_in_order techs).length ∧
    ((main_downloads techs http fs).2.2 = none →
      (main_downloads techs http fs).2.1.map Prod.fst =
        (List.range' 1 (tally techs)).map
          (fun i => mkLabel i (tally techs)) ∧
      (main_downloads techs http fs).2.1.map Prod.snd =
        resources_in_order techs) := by
  refine ⟨tally_eq_length techs, fun herr => ?_⟩
  have h := run_downloads_steps http (resources_in_order techs) fs 1
    (tally techs) herr
  constructor
  · nth_rewrite 2 [tally_eq_length techs]
    exact h.1
  · exact h.2

/-- Witness for C7: two pending resources are downloaded in order with
labels 1/2 and 2/2. -/
theorem c7_sequential_labels_witness :
    tally sampleTechsLoaded = (resources_in_order sampleTechsLoaded).length ∧
    (main_downloads sampleTechsLoaded sampleHttpOk []).2.2 = none ∧
    (main_downloads sampleTechsLoaded sampleHttpOk []).2.1.map Prod.fst =
      (List.range' 1 (tally sampleTechsLoaded)).map
        (fun i => mkLabel i (tally sampleTechsLoaded)) ∧
    (main_downloads sampleTechsLoaded sampleHttpOk []).2.1.map Prod.snd =
      resources_in_order sampleTechsLoaded :=
  ⟨(c7_sequential_labels sampleTechsLoaded sampleHttpOk []).1, by decide,
   ((c7_sequential_labels sampleTechsLoaded sampleHttpOk []).2
     (by decide)).1,
   ((c7_sequential_labels sampleTechsLoaded sampleHttpOk []).2
     (by decide)).2⟩

/-- **C8** (confirmed).  Discovery deduplicates nothing: processing the
same matching response twice appends each document's ResourceRecord again,
so the technology's list then holds the appended block twice — two records
per document id of that response. -/
theorem c8_no_deduplication (resp : BrowserResponse)
    (techs : List (String × TechRecord)) (tid : String) (rec : TechRecord)
    (rid pid fn : String)
    (hmem : (tid, rec) ∈ techs)
    (hurl : pyEndswith resp.url (tid ++ "/benchmarks/latest") = true)
    (hdoc : (rid, (pid, fn)) ∈ extract_document_info resp.json_body) :
    (tid, { rec with
              resource_list := (rec.resource_list ++
                mkResources rec.tech_path
                  (extract_document_info resp.json_body)) ++
                mkResources rec.tech_path
                  (extract_document_info resp.json_body) }) ∈
      process_benchmark_response resp
        (process_benchmark_response resp techs) ∧
    (mkResources rec.tech_path (extract_document_info resp.json_body) ++
        mkResources rec.tech_path
          (extract_document_info resp.json_body)).countP
        (fun r => r.resource_id == rid) = 2 := by
  constructor
  · have h1 := process_mem_matched resp techs tid rec hmem hurl
    have h2 := process_mem_matched resp
      (process_benchmark_response resp techs) tid _ h1 hurl
    exact h2
  · rw [List.countP_append, mkResources_countP,
      countP_key_eq_one resp.json_body rid pid fn hdoc]

/-- Witness for C8: processing the sample response twice leaves two
records for document "d1". -/
theorem c8_no_deduplication_witness :
    (("7", { sampleTech with
               resource_list := (sampleTech.resource_list ++
                 mkResources sampleTech.tech_path
                   (extract_document_info sampleResp.json_body)) ++
                 mkResources sampleTech.tech_path
                   (extract_document_info sampleResp.json_body) }) ∈
      process_benchmark_response sampleResp
        (process_benchmark_response sampleResp sampleTechs)) ∧
    (mkResources sampleTech.tech_path
        (extract_document_info sampleResp.json_body) ++
        mkResources sampleTech.tech_path
          (extract_document_info sampleResp.json_body)).countP
        (fun r => r.resource_id == "d1") = 2 :=
  c8_no_deduplication sampleResp sampleTechs "7" sampleTech "d1" "/p1"
    "bench.pdf" (by decide) (by decide) (by decide)

/-- **C9** (confirmed).  URL matching is a plain suffix test over every
known technology id: when one id is a proper suffix of another, a response
addressed to the longer id also matches the shorter one, and its documents
are appended to both technologies' resource lists. -/
theorem c9_suffix_double_attribution (resp : BrowserResponse)
    (techs : List (String × TechRecord)) (t1 t2 : String)
    (r1 r2 : TechRecord)
    (h1 : (t1, r1) ∈ techs) (h2 : (t2, r2) ∈ techs)
    (_hne : ¬ t1 = t2) (hsuf : t1.data <:+ t2.data)
    (hurl : pyEndswith resp.url (t2 ++ "/benchmarks/latest") = true) :
    pyEndswith resp.url (t1 ++ "/benchmarks/latest") = true ∧
    (t1, { r1 with
             resource_list := r1.resource_list ++
               mkResources r1.tech_path
                 (extract_document_info resp.json_body) }) ∈
      process_benchmark_response resp techs ∧
    (t2, { r2 with
             resource_list := r2.resource_list ++
               mkResources r2.tech_path
                 (extract_document_info resp.json_body) }) ∈
      process_benchmark_response resp techs := by
  have hurl1 := pyEndswith_of_suffix resp.url t1 t2 "/benchmarks/latest"
    hsuf hurl
  exact ⟨hurl1, process_mem_matched resp techs t1 r1 h1 hurl1,
    process_mem_matched resp techs t2 r2 h2 hurl⟩

/-- Witness for C9: a response for technology "17" is also attributed to
technology "7". -/
theorem c9_suffix_double_attribution_witness :
    pyEndswith sampleResp17.url ("7" ++ "/benchmarks/latest") = true ∧
    (("7", { tech_path := "A"
             resource_list := [] ++
               mkResources "A"
                 (extract_document_info sampleResp17.json_body) }) ∈
      process_benchmark_response sampleResp17 sampleTechsSuffix) ∧
    (("17", { tech_path := "B"
              resource_list := [] ++
                mkResources "B"
                  (extract_document_info sampleResp17.json_body) }) ∈
      process_benchmark_response sampleResp17 sampleTechsSuffix) :=
  c9_suffix_double_attribution sampleResp17 sampleTechsSuffix "7" "17"
    { tech_path := "A", resource_list := [] }
    { tech_path := "B", resource_list := [] }
    (by decide) (by decide) (by decide) (by decide) (by decide)

/-- **C10** (confirmed).  Within one response, a repeated document id is
resolved last-wins by `extract_document_info`: the dict entry for that id
holds the pardot-id and filename of the final occurrence, and at most one
ResourceRecord per id is built from the response. -/
theorem c10_last_duplicate_wins (json_data : List DocCategory) (rid : String)
    (d : Document) (pre post : List Document)
    (hsplit : docsOf json_data = pre ++ d :: post)
    (hid : d.id = rid)
    (hpost : ∀ e ∈ post, ¬ e.id = rid) :
    dictGet (extract_document_info json_data) rid =
      some (d.pardotId, d.filename) ∧
    (extract_document_info json_data).countP (fun e => e.1 == rid) ≤ 1 ∧
    ∀ path, (mkResources path (extract_document_info json_data)).countP
        (fun r => r.resource_id == rid) ≤ 1 := by
  refine ⟨?_, ?_, ?_⟩
  · rw [extract_eq_docFold, hsplit, docFold_append]
    have hstep : docFold (docFold [] pre) (d :: post) =
        docFold (dictInsert (docFold [] pre) d.id (d.pardotId, d.filename))
          post := rfl
    rw [hstep, dictGet_docFold_not_mem post rid _ hpost, ← hid]
    exact dictGet_insert_self (docFold [] pre) d.id (d.pardotId, d.filename)
  · exact countP_key_le_one _ rid (extract_nodupKeys json_data)
  · intro path
    rw [mkResources_countP]
    exact countP_key_le_one _ rid (extract_nodupKeys json_data)

/-- Witness for C10: with "d1" listed twice, the extracted entry is the
second occurrence ("/p2", "b.pdf") and only one record for "d1" is built. -/
theorem c10_last_duplicate_wins_witness :
    dictGet (extract_document_info sampleRespDup.json_body) "d1" =
      some ("/p2", "b.pdf") ∧
    (extract_document_info sampleRespDup.json_body).countP
      (fun e => e.1 == "d1") ≤ 1 ∧
    (mkResources "T" (extract_document_info sampleRespDup.json_body)).countP
      (fun r => r.resource_id == "d1") ≤ 1 :=
  ⟨(c10_last_duplicate_wins sampleRespDup.json_body "d1"
      { id := "d1", pardotId := "/p2", filename := "b.pdf" }
      [{ id := "d1", pardotId := "/p1", filename := "a.pdf" }] []
      (by decide) (by decide) (by simp)).1,
   (c10_last_duplicate_wins sampleRespDup.json_body "d1"
      { id := "d1", pardotId := "/p2", filename := "b.pdf" }
      [{ id := "d1", pardotId := "/p1", filename := "a.pdf" }] []
      (by decide) (by decide) (by simp)).2.1,
   (c10_last_duplicate_wins sampleRespDup.json_body "d1"
      { id := "d1", pardotId := "/p2", filename := "b.pdf" }
      [{ id := "d1", pardotId := "/p1", filename := "a.pdf" }] []
      (by decide) (by decide) (by simp)).2.2 "T"⟩

end CISBench
